import Mathlib

/-!
Verification of the D3D12 capture manager
(`src/framework/encode/d3d12_capture_manager.h` of gfxreconstruct).

The inline method bodies of `D3D12CaptureManager` are embedded shallowly:
pointers become `Option`, `HRESULT` becomes `Int` with `SUCCEEDED` as
non-negativity, the capture-mode bitmask becomes `Nat` with `&&&`, and the
observable registry / trace-sink calls performed by a hook become an explicit
list of events.  Methods whose bodies are only declared in the header (their
definitions live in a translation unit that is not part of the provided
sources) are modelled from the specification and marked as such in their doc
comments.
-/

namespace Gfxrecon

/-- Capture-mode bit for state tracking (`kModeTrack` of the base
`CaptureManager`); every tracking test in the header is written
`(GetCaptureMode() & kModeTrack) == kModeTrack`.  The numeric value of the bit
is not in the provided sources; it is taken to be bit 1 of the bitmask, which
only fixes which bit is "the tracking bit". -/
def kModeTrack : Nat := 2

/-- The Windows `SUCCEEDED(hr)` macro: an `HRESULT` (signed 32-bit integer)
denotes success exactly when it is non-negative. -/
def SUCCEEDED (hr : Int) : Bool := decide (0 ≤ hr)

/-- Per-thread data consumed by the end-of-call hooks: the current call id
(`thread_data->call_id_`) and the staged raw parameter bytes
(`thread_data->parameter_buffer_`). -/
structure ThreadData where
  call_id : Nat
  parameter_buffer : List Nat
deriving DecidableEq

/-- Observable effects performed by the capture-manager hooks: state-tracker
registry calls and the unconditional call-record finalization
(`EndMethodCallCapture`). -/
inductive Event where
  | addEntry (riid : Nat) (handle : Nat) (callId : Nat) (wrapper : Nat) (params : List Nat)
  | trackCommand (listWrapper : Nat) (callId : Nat) (params : List Nat) (func : Nat)
  | removeEntry (wrapper : Nat)
  | trackRelease (wrapper : Nat)
  | endMethodCallCapture
  | callRecord
  | frameCapture
  | registerBuffer (handle : Nat)
  | deregisterBuffer (handle : Nat)
deriving DecidableEq

/-- Recognizes a `Dx12StateTracker::AddEntry` registration event. -/
def isAddEntry : Event → Bool
  | .addEntry _ _ _ _ _ => true
  | _ => false

/-- Recognizes a `Dx12StateTracker::TrackCommand` event. -/
def isTrackCommand : Event → Bool
  | .trackCommand _ _ _ _ => true
  | _ => false

/-- `D3D12CaptureManager::EndCreateMethodCallCapture` (inline in the header):
when the tracking mode bit is set and `SUCCEEDED(result)`, and the output
handle pointer and the dereferenced handle are both non-null, it calls
`state_tracker_->AddEntry(riid, handle, thread_data->call_id_,
create_object_wrapper, thread_data->parameter_buffer_.get())`; in every case it
then calls `EndMethodCallCapture()`.  The `void** handle` is modelled as
`Option (Option Nat)`: the outer layer is the pointer itself, the inner layer
the dereferenced handle. -/
def EndCreateMethodCallCapture (mode : Nat) (result : Int) (handle : Option (Option Nat))
    (riid : Nat) (create_object_wrapper : Nat) (thread_data : ThreadData) : List Event :=
  (if ((mode &&& kModeTrack) == kModeTrack) && SUCCEEDED result then
    match handle with
    | some (some h) =>
        [Event.addEntry riid h thread_data.call_id create_object_wrapper
          thread_data.parameter_buffer]
    | _ => []
  else []) ++ [Event.endMethodCallCapture]

/-- `D3D12CaptureManager::EndCommandListMethodCallCapture` (templated overload,
inline in the header): when the tracking mode bit is set it calls
`state_tracker_->TrackCommand(list_wrapper, thread_data->call_id_,
thread_data->parameter_buffer_.get(), func, args...)`; in every case it then
calls `EndMethodCallCapture()`.  The handle-extraction function and its
arguments are modelled as an opaque token `func`. -/
def EndCommandListMethodCallCapture (mode : Nat) (list_wrapper : Nat)
    (thread_data : ThreadData) (func : Nat) : List Event :=
  (if (mode &&& kModeTrack) == kModeTrack then
    [Event.trackCommand list_wrapper thread_data.call_id thread_data.parameter_buffer func]
  else []) ++ [Event.endMethodCallCapture]

/-- `D3D12CaptureManager::ProcessWrapperDestroy` (inline in the header): when
the tracking mode bit is set it calls `state_tracker_->RemoveEntry(wrapper)`
and then `state_tracker_->TrackRelease(wrapper)`; otherwise it does nothing. -/
def ProcessWrapperDestroy (mode : Nat) (wrapper : Nat) : List Event :=
  if (mode &&& kModeTrack) == kModeTrack then
    [Event.removeEntry wrapper, Event.trackRelease wrapper]
  else []

/-- C1: `EndCreateMethodCallCapture` registers a new LiveObject via `AddEntry`
(keyed by interface kind and handle, capturing the current thread's call id and
staged parameter bytes) if and only if the tracking mode bit is set, the native
result succeeded, the output handle pointer is non-null, and the dereferenced
handle is non-null; and exactly one registration occurs per such successful
creation. -/
theorem endCreateMethodCallCapture_registers_iff
    (mode : Nat) (result : Int) (handle : Option (Option Nat))
    (riid create_object_wrapper : Nat) (thread_data : ThreadData) :
    ((EndCreateMethodCallCapture mode result handle riid create_object_wrapper
        thread_data).countP isAddEntry =
      if ((mode &&& kModeTrack) == kModeTrack) && SUCCEEDED result
          && (match handle with | some (some _) => true | _ => false) then 1 else 0)
    ∧ (∀ h, handle = some (some h) → (mode &&& kModeTrack) = kModeTrack →
        SUCCEEDED result = true →
        EndCreateMethodCallCapture mode result handle riid create_object_wrapper
            thread_data =
          [Event.addEntry riid h thread_data.call_id create_object_wrapper
              thread_data.parameter_buffer,
            Event.endMethodCallCapture]) := by
  constructor
  · rcases handle with _ | (_ | h) <;>
      by_cases hm : (mode &&& kModeTrack) == kModeTrack <;>
      by_cases hr : SUCCEEDED result <;>
      simp [EndCreateMethodCallCapture, isAddEntry, hm, hr, List.countP_append,
        List.countP_cons]
  · intro h hh hm hr
    subst hh
    simp [EndCreateMethodCallCapture, hm, hr]

/-- Witness for C1 at a concrete input: tracking bit set (`mode = 3`), success
(`result = 0`), non-null handle pointer dereferencing to handle `5`. -/
theorem endCreateMethodCallCapture_registers_iff_witness :
    (EndCreateMethodCallCapture 3 0 (some (some 5)) 7 9 ⟨11, [1, 2]⟩).countP isAddEntry = 1
    ∧ EndCreateMethodCallCapture 3 0 (some (some 5)) 7 9 ⟨11, [1, 2]⟩ =
        [Event.addEntry 7 5 11 9 [1, 2], Event.endMethodCallCapture] := by
  have h := endCreateMethodCallCapture_registers_iff 3 0 (some (some 5)) 7 9 ⟨11, [1, 2]⟩
  refine ⟨?_, h.2 5 rfl (by decide) (by decide)⟩
  rw [h.1]
  decide

/-- C2: in both `EndCreateMethodCallCapture` and the templated
`EndCommandListMethodCallCapture`, the call record is finalized and emitted
(`EndMethodCallCapture` runs, exactly once) unconditionally — for every capture
mode and every native result — while the registry-update step (`AddEntry` /
`TrackCommand`) runs only when the tracking bit is set. -/
theorem endMethodCallCapture_always_runs
    (mode : Nat) (result : Int) (handle : Option (Option Nat))
    (riid create_object_wrapper list_wrapper func : Nat) (thread_data : ThreadData) :
    ((EndCreateMethodCallCapture mode result handle riid create_object_wrapper
        thread_data).count Event.endMethodCallCapture = 1)
    ∧ ((EndCommandListMethodCallCapture mode list_wrapper thread_data func).count
        Event.endMethodCallCapture = 1)
    ∧ ((mode &&& kModeTrack) ≠ kModeTrack →
        (EndCreateMethodCallCapture mode result handle riid create_object_wrapper
            thread_data).countP isAddEntry = 0
        ∧ (EndCommandListMethodCallCapture mode list_wrapper thread_data func).countP
            isTrackCommand = 0) := by
  refine ⟨?_, ?_, ?_⟩
  · rcases handle with _ | (_ | h) <;>
      by_cases hm : (mode &&& kModeTrack) == kModeTrack <;>
      by_cases hr : SUCCEEDED result <;>
      simp [EndCreateMethodCallCapture, hm, hr, List.count_append, List.count_cons]
  · by_cases hm : (mode &&& kModeTrack) == kModeTrack <;>
      simp [EndCommandListMethodCallCapture, hm, List.count_append, List.count_cons]
  · intro hm
    have hm' : ((mode &&& kModeTrack) == kModeTrack) = false := by
      simpa using hm
    constructor
    · rcases handle with _ | (_ | h) <;>
        simp [EndCreateMethodCallCapture, hm', isAddEntry, List.countP_append,
          List.countP_cons]
    · simp [EndCommandListMethodCallCapture, hm', isTrackCommand, List.countP_append,
        List.countP_cons]

/-- Witness for C2 at a concrete input: recording-only mode (`mode = 1`, so the
tracking bit is clear) and a failing result (`result = -1`): the call record is
still emitted once by both hooks, and no registry update happens. -/
theorem endMethodCallCapture_always_runs_witness :
    ((EndCreateMethodCallCapture 1 (-1) (some (some 5)) 7 9 ⟨11, [1]⟩).count
        Event.endMethodCallCapture = 1)
    ∧ ((EndCommandListMethodCallCapture 1 13 ⟨11, [1]⟩ 4).count
        Event.endMethodCallCapture = 1)
    ∧ ((EndCreateMethodCallCapture 1 (-1) (some (some 5)) 7 9 ⟨11, [1]⟩).countP
        isAddEntry = 0)
    ∧ ((EndCommandListMethodCallCapture 1 13 ⟨11, [1]⟩ 4).countP isTrackCommand = 0) := by
  have h := endMethodCallCapture_always_runs 1 (-1) (some (some 5)) 7 9 13 4 ⟨11, [1]⟩
  have h3 := h.2.2 (by decide)
  exact ⟨h.1, h.2.1, h3.1, h3.2⟩

/-- C9: `ProcessWrapperDestroy` with the tracking bit set performs exactly
`RemoveEntry` followed by `TrackRelease` (in that order); with the tracking bit
clear it performs no registry bookkeeping at all. -/
theorem processWrapperDestroy_registry_events (mode wrapper : Nat) :
    ((mode &&& kModeTrack) = kModeTrack →
      ProcessWrapperDestroy mode wrapper =
        [Event.removeEntry wrapper, Event.trackRelease wrapper])
    ∧ ((mode &&& kModeTrack) ≠ kModeTrack → ProcessWrapperDestroy mode wrapper = []) := by
  constructor
  · intro hm
    simp [ProcessWrapperDestroy, hm]
  · intro hm
    have hm' : ((mode &&& kModeTrack) == kModeTrack) = false := by simpa using hm
    simp [ProcessWrapperDestroy, hm']

/-- Witness for C9 at concrete inputs: mode 2 (tracking set) destroys wrapper 4
with remove-then-release; mode 1 (tracking clear) performs nothing. -/
theorem processWrapperDestroy_registry_events_witness :
    ProcessWrapperDestroy 2 4 = [Event.removeEntry 4, Event.trackRelease 4]
    ∧ ProcessWrapperDestroy 1 4 = [] :=
  ⟨(processWrapperDestroy_registry_events 2 4).1 (by decide),
    (processWrapperDestroy_registry_events 1 4).2 (by decide)⟩

end Gfxrecon

namespace Gfxrecon

/-- Thread identifiers for the thread-local state. -/
abbrev ThreadId := Nat

/-- `static thread_local uint32_t call_scope_`: one unsigned 32-bit nesting
depth per thread, modelled as a map from thread id to its current value. -/
def CallScopeState := ThreadId → Nat

/-- The modulus of `uint32_t` arithmetic. -/
def u32 : Nat := 2 ^ 32

/-- Writes one thread's `call_scope_` value, leaving every other thread's
thread-local copy untouched. -/
def setCallScope (s : CallScopeState) (t : ThreadId) (v : Nat) : CallScopeState :=
  fun u => if u = t then v else s u

/-- `D3D12CaptureManager::IncrementCallScope` (inline in the header): returns
`++call_scope_`, i.e. the current thread's depth after a pre-increment in
unsigned 32-bit arithmetic. -/
def IncrementCallScope (s : CallScopeState) (t : ThreadId) : Nat × CallScopeState :=
  let v := (s t + 1) % u32
  (v, setCallScope s t v)

/-- `D3D12CaptureManager::DecrementCallScope` (inline in the header): returns
`--call_scope_`, i.e. the current thread's depth after a pre-decrement in
unsigned 32-bit arithmetic (subtracting 1 modulo `2^32`). -/
def DecrementCallScope (s : CallScopeState) (t : ThreadId) : Nat × CallScopeState :=
  let v := (s t + (u32 - 1)) % u32
  (v, setCallScope s t v)

theorem setCallScope_self (s : CallScopeState) (t : ThreadId) (v : Nat) :
    setCallScope s t v t = v := by
  simp [setCallScope]

theorem setCallScope_other (s : CallScopeState) (t u : ThreadId) (v : Nat) (h : u ≠ t) :
    setCallScope s t v u = s u := by
  simp [setCallScope, h]

/-- C3: the call scope is a per-thread nesting depth: `IncrementCallScope`
returns the incremented depth and `DecrementCallScope` the decremented depth
(unsigned 32-bit); an increment followed by a decrement on the same thread
restores that thread's depth to its prior value; operations on one thread never
change another thread's depth; and the first increment on a quiescent thread
(depth 0) yields depth 1, the application-initiated (top-level) marker. -/
theorem callScope_per_thread (s : CallScopeState) (t u : ThreadId)
    (hs : s t < u32) (hu : u ≠ t) :
    (IncrementCallScope s t).1 = (s t + 1) % u32
    ∧ (DecrementCallScope s t).1 = (s t + (u32 - 1)) % u32
    ∧ (DecrementCallScope (IncrementCallScope s t).2 t).2 t = s t
    ∧ (IncrementCallScope s t).2 u = s u
    ∧ (DecrementCallScope s t).2 u = s u
    ∧ (s t = 0 → (IncrementCallScope s t).1 = 1) := by
  refine ⟨rfl, rfl, ?_, ?_, ?_, ?_⟩
  · show setCallScope (setCallScope s t ((s t + 1) % u32)) t
      ((setCallScope s t ((s t + 1) % u32) t + (u32 - 1)) % u32) t = s t
    rw [setCallScope_self, setCallScope_self, Nat.mod_add_mod]
    have h1 : s t + 1 + (u32 - 1) = s t + u32 := by
      have : (1 : Nat) ≤ u32 := by norm_num [u32]
      omega
    rw [h1, Nat.add_mod_right, Nat.mod_eq_of_lt hs]
  · exact setCallScope_other _ _ _ _ hu
  · exact setCallScope_other _ _ _ _ hu
  · intro h0
    show (s t + 1) % u32 = 1
    rw [h0]
    norm_num [u32]

/-- Witness for C3 at a concrete input: all threads start at depth 0; thread 0
increments to 1 and back to 0, leaving thread 1 untouched. -/
theorem callScope_per_thread_witness :
    (IncrementCallScope (fun _ => 0) 0).1 = 1
    ∧ (DecrementCallScope (IncrementCallScope (fun _ => 0) 0).2 0).2 0 = 0
    ∧ (IncrementCallScope (fun _ => 0) 0).2 1 = 0 := by
  have h := callScope_per_thread (fun _ => 0) 0 1 (by norm_num [u32]) (by decide)
  exact ⟨h.2.2.2.2.2 rfl, h.2.2.1, h.2.2.2.1⟩

/-- C10: `DecrementCallScope` performs unsigned 32-bit arithmetic with no floor
at zero: on a thread whose depth is 0 it wraps modulo `2^32` to `4294967295`
rather than failing or saturating, a depth on which the `depth == 1` top-level
test does not hold. -/
theorem decrementCallScope_wraps (s : CallScopeState) (t : ThreadId) (h : s t = 0) :
    (DecrementCallScope s t).1 = 4294967295
    ∧ (DecrementCallScope s t).1 ≠ 1
    ∧ (DecrementCallScope s t).2 t = 4294967295 := by
  have hv : (s t + (u32 - 1)) % u32 = 4294967295 := by
    rw [h]
    norm_num [u32]
  refine ⟨hv, ?_, ?_⟩
  · rw [show (DecrementCallScope s t).1 = (s t + (u32 - 1)) % u32 from rfl, hv]
    norm_num
  · show setCallScope s t ((s t + (u32 - 1)) % u32) t = 4294967295
    rw [setCallScope_self, hv]

/-- Witness for C10 at a concrete input: every thread at depth 0, decrement on
thread 0 wraps to `4294967295`. -/
theorem decrementCallScope_wraps_witness :
    (DecrementCallScope (fun _ => 0) 0).1 = 4294967295
    ∧ (DecrementCallScope (fun _ => 0) 0).1 ≠ 1 := by
  have h := decrementCallScope_wraps (fun _ => 0) 0 rfl
  exact ⟨h.1, h.2.1⟩

end Gfxrecon

namespace Gfxrecon

/-- Modelled from the spec: the intercepted present path.
`PostProcess_IDXGISwapChain_Present`, `PostPresent` and `TakeScreenshot` are
declared in `d3d12_capture_manager.h` but their bodies are not in the provided
sources.  Per the spec, the generated stub always emits the call record, while
the out-of-band frame capture after a successful present fires only for a
top-level call (call-scope depth 1) and only when screenshot capture is
configured; its failure never alters the reported present result. -/
def InterceptedPresent (depth : Nat) (result : Int) (screenshotConfigured : Bool) :
    List Event :=
  Event.callRecord ::
    (if (depth == 1) && SUCCEEDED result && screenshotConfigured then
      [Event.frameCapture]
    else [])

/-- C4: a present processed at call-scope depth strictly greater than 1 is
still recorded in the trace but never triggers the out-of-band frame capture,
for every result and every screenshot configuration. -/
theorem present_depth_gt_one_no_frame_capture (depth : Nat) (result : Int)
    (screenshotConfigured : Bool) (hd : 1 < depth) :
    Event.callRecord ∈ InterceptedPresent depth result screenshotConfigured
    ∧ Event.frameCapture ∉ InterceptedPresent depth result screenshotConfigured := by
  have hdepth : (depth == 1) = false := by
    simp only [beq_eq_false_iff_ne, ne_eq]
    omega
  constructor
  · simp [InterceptedPresent]
  · simp [InterceptedPresent, hdepth]

/-- Witness for C4 at a concrete input: a successful present at depth 2 with
screenshot capture configured is recorded but takes no frame capture. -/
theorem present_depth_gt_one_no_frame_capture_witness :
    Event.callRecord ∈ InterceptedPresent 2 0 true
    ∧ Event.frameCapture ∉ InterceptedPresent 2 0 true :=
  present_depth_gt_one_no_frame_capture 2 0 true (by decide)

/-- Modelled from the spec: `PostProcess_ID3D12Resource_Map` is declared in
`d3d12_capture_manager.h` but its body is not in the provided sources; per the
spec, on a successful map (success result and a non-null returned pointer) the
resource is added to `mapped_resources_`, the set of currently mapped resources
(a `std::set`, modelled as a `Finset`). -/
def PostProcess_ID3D12Resource_Map (mapped_resources : Finset Nat) (wrapper : Nat)
    (result : Int) (data : Option Nat) : Finset Nat :=
  if SUCCEEDED result && data.isSome then insert wrapper mapped_resources
  else mapped_resources

/-- Modelled from the spec: `PreProcess_ID3D12Resource_Unmap` is declared in
`d3d12_capture_manager.h` but its body is not in the provided sources; per the
spec, on unmap the resource is removed from `mapped_resources_`. -/
def PreProcess_ID3D12Resource_Unmap (mapped_resources : Finset Nat) (wrapper : Nat) :
    Finset Nat :=
  mapped_resources.erase wrapper

/-- C5: a successful map adds the resource to the mapped set and a subsequent
unmap removes it, so Map(r) → Unmap(r) → Map(r) leaves r present exactly once
(multiset count 1 in the underlying set) during each open mapped interval,
never as a duplicate and never with a negative count, and the unmap restores
the original set. -/
theorem map_unmap_map_exactly_once (mapped_resources : Finset Nat) (r : Nat)
    (result : Int) (data : Option Nat) (hr : SUCCEEDED result = true)
    (hdata : data.isSome = true) (hfresh : r ∉ mapped_resources) :
    (PostProcess_ID3D12Resource_Map mapped_resources r result data).val.count r = 1
    ∧ (PreProcess_ID3D12Resource_Unmap
        (PostProcess_ID3D12Resource_Map mapped_resources r result data) r).val.count r = 0
    ∧ PreProcess_ID3D12Resource_Unmap
        (PostProcess_ID3D12Resource_Map mapped_resources r result data) r
        = mapped_resources
    ∧ (PostProcess_ID3D12Resource_Map
        (PreProcess_ID3D12Resource_Unmap
          (PostProcess_ID3D12Resource_Map mapped_resources r result data) r)
        r result data).val.count r = 1 := by
  have hmap : PostProcess_ID3D12Resource_Map mapped_resources r result data
      = insert r mapped_resources := by
    simp [PostProcess_ID3D12Resource_Map, hr, hdata]
  have herase : PreProcess_ID3D12Resource_Unmap
      (PostProcess_ID3D12Resource_Map mapped_resources r result data) r
      = mapped_resources := by
    rw [hmap]
    exact Finset.erase_insert hfresh
  have hcount : ∀ s : Finset Nat, r ∈ s → s.val.count r = 1 := by
    intro s hs
    have := s.nodup
    rw [Multiset.count_eq_one_of_mem this hs]
  refine ⟨?_, ?_, herase, ?_⟩
  · exact hcount _ (hmap ▸ Finset.mem_insert_self r mapped_resources)
  · rw [herase]
    exact Multiset.count_eq_zero_of_not_mem hfresh
  · rw [herase, hmap]
    exact hcount _ (Finset.mem_insert_self r mapped_resources)

/-- Witness for C5 at a concrete input: mapping resource 7 into the set `{3}`,
unmapping it, and mapping it again. -/
theorem map_unmap_map_exactly_once_witness :
    (PostProcess_ID3D12Resource_Map {3} 7 0 (some 42)).val.count 7 = 1
    ∧ PreProcess_ID3D12Resource_Unmap
        (PostProcess_ID3D12Resource_Map {3} 7 0 (some 42)) 7 = {3}
    ∧ (PostProcess_ID3D12Resource_Map
        (PreProcess_ID3D12Resource_Unmap
          (PostProcess_ID3D12Resource_Map {3} 7 0 (some 42)) 7)
        7 0 (some 42)).val.count 7 = 1 := by
  have h := map_unmap_map_exactly_once {3} 7 0 (some 42) (by decide) (by decide)
    (by decide)
  exact ⟨h.1, h.2.2.1, h.2.2.2⟩

/-- Modelled from the spec: `PreProcess_IDXGISwapChain_ResizeBuffers` /
`ReleaseSwapChainImages` are declared in `d3d12_capture_manager.h` but their
bodies are not in the provided sources; per the spec, before the native resize
call the manager deregisters every buffer LiveObject of the current buffer set.
Returns the deregistration events and the emptied buffer array. -/
def PreProcess_IDXGISwapChain_ResizeBuffers (images : List Nat) :
    List Event × List Nat :=
  (images.map Event.deregisterBuffer, [])

/-- Modelled from the spec: `PostProcess_IDXGISwapChain_ResizeBuffers` /
`ResizeSwapChainImages` are declared in `d3d12_capture_manager.h` but their
bodies are not in the provided sources; per the spec, after a successful resize
the manager re-registers a buffer array sized to the new buffer count (fresh
handles starting at `freshBase`); on failure nothing is registered.  Returns
the registration events and the new buffer array. -/
def PostProcess_IDXGISwapChain_ResizeBuffers (images : List Nat) (result : Int)
    (buffer_count : Nat) (freshBase : Nat) : List Event × List Nat :=
  if SUCCEEDED result then
    let newImages := (List.range buffer_count).map (fun i => freshBase + i)
    (newImages.map Event.registerBuffer, newImages)
  else ([], images)

/-- C6: a resize first deregisters the entire current buffer set (one
deregistration per current buffer, before the native call), then after a
successful resize registers exactly `buffer_count` buffers and leaves the
buffer array length equal to `buffer_count`; in particular oldCount = 2 to
newCount = 3 deregisters exactly 2 and registers exactly 3. -/
theorem resizeBuffers_deregister_then_register (images : List Nat) (result : Int)
    (buffer_count freshBase : Nat) (hr : SUCCEEDED result = true) :
    (PreProcess_IDXGISwapChain_ResizeBuffers images).1.length = images.length
    ∧ (PreProcess_IDXGISwapChain_ResizeBuffers images).2 = []
    ∧ (PostProcess_IDXGISwapChain_ResizeBuffers
        (PreProcess_IDXGISwapChain_ResizeBuffers images).2 result buffer_count
        freshBase).1.length = buffer_count
    ∧ (PostProcess_IDXGISwapChain_ResizeBuffers
        (PreProcess_IDXGISwapChain_ResizeBuffers images).2 result buffer_count
        freshBase).2.length = buffer_count := by
  refine ⟨by simp [PreProcess_IDXGISwapChain_ResizeBuffers], rfl, ?_, ?_⟩ <;>
    simp [PreProcess_IDXGISwapChain_ResizeBuffers,
      PostProcess_IDXGISwapChain_ResizeBuffers, hr]

/-- Witness for C6 at the concrete input of the claim: resize from buffers
`[10, 11]` (oldCount 2) to newCount 3 deregisters exactly 2, registers exactly
3 and leaves a buffer array of length 3. -/
theorem resizeBuffers_deregister_then_register_witness :
    (PreProcess_IDXGISwapChain_ResizeBuffers [10, 11]).1.length = 2
    ∧ (PostProcess_IDXGISwapChain_ResizeBuffers
        (PreProcess_IDXGISwapChain_ResizeBuffers [10, 11]).2 0 3 20).1.length = 3
    ∧ (PostProcess_IDXGISwapChain_ResizeBuffers
        (PreProcess_IDXGISwapChain_ResizeBuffers [10, 11]).2 0 3 20).2.length = 3 := by
  have h := resizeBuffers_deregister_then_register [10, 11] 0 3 20 (by decide)
  exact ⟨h.1, h.2.2.1, h.2.2.2⟩

end Gfxrecon

namespace Gfxrecon

/-- `EnableDREDInfo` (declared in headers outside the provided sources):
the device-removal-diagnostics enablement values recorded by the three
`PostProcess_ID3D12DeviceRemovedExtendedDataSettings*` hooks, modelled from the
spec as plain stored values. -/
structure EnableDREDInfo where
  auto_breadcrumbs_enablement : Nat
  breadcrumb_context_enablement : Nat
  page_fault_enablement : Nat
deriving DecidableEq

/-- The diagnostic-tracking portion of the manager state: the stored fields
`track_enable_debug_layer_object_id_` and `track_enable_dred_info_` from
`d3d12_capture_manager.h`, plus the set of live objects (to make releasing the
configuring object observable). -/
structure DiagnosticState where
  track_enable_debug_layer_object_id_ : Nat
  track_enable_dred_info_ : EnableDREDInfo
  liveObjects : Finset Nat
deriving DecidableEq

/-- `D3D12CaptureManager::GetEnableDebugLayerObjectId` (inline in the header):
returns the stored field `track_enable_debug_layer_object_id_`. -/
def GetEnableDebugLayerObjectId (s : DiagnosticState) : Nat :=
  s.track_enable_debug_layer_object_id_

/-- `D3D12CaptureManager::GetEnableDREDInfo` (inline in the header): returns
the stored field `track_enable_dred_info_`. -/
def GetEnableDREDInfo (s : DiagnosticState) : EnableDREDInfo :=
  s.track_enable_dred_info_

/-- Modelled from the spec: `PostProcess_ID3D12Debug_EnableDebugLayer` is
declared in `d3d12_capture_manager.h` but its body is not in the provided
sources; per the spec it records the configuring object's id as a stored value
in `track_enable_debug_layer_object_id_`, not as a live reference. -/
def PostProcess_ID3D12Debug_EnableDebugLayer (s : DiagnosticState)
    (debug_wrapper_id : Nat) : DiagnosticState :=
  { s with track_enable_debug_layer_object_id_ := debug_wrapper_id }

/-- Modelled from the spec:
`PostProcess_ID3D12DeviceRemovedExtendedDataSettings_SetAutoBreadcrumbsEnablement`
is declared in `d3d12_capture_manager.h` but its body is not in the provided
sources; per the spec it records the configured enablement as a stored value in
`track_enable_dred_info_`. -/
def PostProcess_SetAutoBreadcrumbsEnablement (s : DiagnosticState)
    (enablement : Nat) : DiagnosticState :=
  { s with track_enable_dred_info_ :=
      { s.track_enable_dred_info_ with auto_breadcrumbs_enablement := enablement } }

/-- Modelled from the spec: releasing an object removes it from the live-object
set; because the diagnostic settings are recorded as values keyed by object id
rather than as live references, the release touches no stored diagnostic
field. -/
def ReleaseObject (s : DiagnosticState) (id : Nat) : DiagnosticState :=
  { s with liveObjects := s.liveObjects.erase id }

/-- C7: diagnostic configurations are recorded as stored values, not live
references: after configuring the debug layer (recording the configuring
object's id) or a DRED enablement, and then releasing the configuring object,
the accessors `GetEnableDebugLayerObjectId` / `GetEnableDREDInfo` still return
the configured value, and the released object is indeed gone from the live
set. -/
theorem diagnostic_values_survive_release (s : DiagnosticState)
    (debug_wrapper_id dred_wrapper_id enablement : Nat) :
    GetEnableDebugLayerObjectId
        (ReleaseObject (PostProcess_ID3D12Debug_EnableDebugLayer s debug_wrapper_id)
          debug_wrapper_id) = debug_wrapper_id
    ∧ (GetEnableDREDInfo
        (ReleaseObject (PostProcess_SetAutoBreadcrumbsEnablement s enablement)
          dred_wrapper_id)).auto_breadcrumbs_enablement = enablement
    ∧ debug_wrapper_id ∉
        (ReleaseObject (PostProcess_ID3D12Debug_EnableDebugLayer s debug_wrapper_id)
          debug_wrapper_id).liveObjects :=
  ⟨rfl, rfl, Finset.not_mem_erase _ _⟩

/-- Modelled from the spec and the header documentation: `CreateInstance`
creates the capture manager instance if none exists, or increments a reference
count if an instance already exists; `DestroyInstance` decrements the count,
releasing the instance when the count reaches zero, and is ignored if the count
is already zero.  Their bodies are not in the provided sources. -/
structure InstanceState where
  instanceExists : Bool
  instance_count : Nat
deriving DecidableEq

/-- Modelled from the spec: `D3D12CaptureManager::CreateInstance` — constructs
the instance on first acquisition (count becomes 1), otherwise only increments
the reference count. -/
def CreateInstance (s : InstanceState) : InstanceState :=
  if s.instanceExists then { s with instance_count := s.instance_count + 1 }
  else { instanceExists := true, instance_count := 1 }

/-- Modelled from the spec: `D3D12CaptureManager::DestroyInstance` — ignored
when the count is already zero; otherwise decrements the count and destructs
the instance exactly when the count reaches zero. -/
def DestroyInstance (s : InstanceState) : InstanceState :=
  if s.instance_count = 0 then s
  else if s.instance_count = 1 then { instanceExists := false, instance_count := 0 }
  else { s with instance_count := s.instance_count - 1 }

/-- C8: the singleton lifecycle is reference counted: the first
`CreateInstance` constructs the instance with count 1; every subsequent
`CreateInstance` only increments the count; `DestroyInstance` decrements the
count, destructs the instance only when the count reaches zero (count 1 before
the call), leaves it alive at higher counts, and is ignored when the count is
already zero. -/
theorem instance_refcount_lifecycle (s : InstanceState) :
    (s.instanceExists = false →
      CreateInstance s = { instanceExists := true, instance_count := 1 })
    ∧ (s.instanceExists = true →
      CreateInstance s =
        { instanceExists := true, instance_count := s.instance_count + 1 })
    ∧ (s.instance_count = 0 → DestroyInstance s = s)
    ∧ (s.instance_count = 1 →
      DestroyInstance s = { instanceExists := false, instance_count := 0 })
    ∧ (2 ≤ s.instance_count →
      DestroyInstance s = { s with instance_count := s.instance_count - 1 }
      ∧ (DestroyInstance s).instanceExists = s.instanceExists) := by
  refine ⟨?_, ?_, ?_, ?_, ?_⟩
  · intro h
    simp [CreateInstance, h]
  · intro h
    simp [CreateInstance, h]
  · intro h
    simp [DestroyInstance, h]
  · intro h
    simp [DestroyInstance, h]
  · intro h
    have h0 : s.instance_count ≠ 0 := by omega
    have h1 : s.instance_count ≠ 1 := by omega
    constructor
    · simp [DestroyInstance, h0, h1]
    · simp [DestroyInstance, h0, h1]

/-- Witness for C8 at concrete inputs: starting from no instance, create
constructs with count 1; create again increments to 2; destroy at count 2
keeps the instance alive at count 1; destroy at count 1 destructs; destroy at
count 0 is ignored. -/
theorem instance_refcount_lifecycle_witness :
    CreateInstance ⟨false, 0⟩ = ⟨true, 1⟩
    ∧ CreateInstance ⟨true, 1⟩ = ⟨true, 2⟩
    ∧ DestroyInstance ⟨true, 2⟩ = ⟨true, 1⟩
    ∧ DestroyInstance ⟨true, 1⟩ = ⟨false, 0⟩
    ∧ DestroyInstance ⟨false, 0⟩ = ⟨false, 0⟩ :=
  ⟨(instance_refcount_lifecycle ⟨false, 0⟩).1 rfl,
    (instance_refcount_lifecycle ⟨true, 1⟩).2.1 rfl,
    ((instance_refcount_lifecycle ⟨true, 2⟩).2.2.2.2 (by decide)).1,
    (instance_refcount_lifecycle ⟨true, 1⟩).2.2.2.1 rfl,
    (instance_refcount_lifecycle ⟨false, 0⟩).2.2.1 rfl⟩

end Gfxrecon
